import Mathlib

/-
Verification of the IV-catheter insertion simulator
(src/App.tsx, src/components/SliderControls.tsx, src/components/Arm.tsx,
src/components/Needle.tsx).

The behavioral core is the React state in App.tsx:
  phase, mode, innerOffset, outerOffset, needleAngle, needlePos
together with the event handlers that mutate it.  We embed that state as a
record over ℚ (the source computes with JS doubles; all constants involved
are exact decimal fractions) and each handler as a state transformer.
Slider commands reach the App handlers only through the SliderControls
component, which does not render before puncture, disables its inputs on
completion, and whose range inputs clamp values to their min/max attributes;
those gates are embedded as wrappers around the raw handlers.

Transient drag bookkeeping in App.tsx (isDragging, lastPointer, isOverUI,
lastPinchDist, activeTouchCount) only restricts WHEN a pointer/pinch event
fires and determines the concrete delta it carries; we model the delta as an
arbitrary command argument, so the modeled command set is a superset of the
real one and every invariant proved over it also holds for the source.
-/

/-- A 3D vector with rational coordinates (embedding of THREE.Vector3). -/
structure Vec3 where
  x : ℚ
  y : ℚ
  z : ℚ
deriving DecidableEq

/-- Simulation phase (App.tsx line 9). -/
inductive Phase
  | prePuncture
  | punctured
  | advancing
  | completed
deriving DecidableEq

/-- Interaction mode (App.tsx line 10): orbiting the camera or moving the needle. -/
inductive Mode
  | camera
  | needle
deriving DecidableEq

/-- The React state owned by App (App.tsx lines 194-199). -/
structure SimState where
  phase : Phase
  mode : Mode
  innerOffset : ℚ
  outerOffset : ℚ
  needleAngle : ℚ
  needlePos : Vec3
deriving DecidableEq

/-- Clamping pattern Math.max(lo, Math.min(hi, v)) used throughout App.tsx. -/
def clampQ (lo hi v : ℚ) : ℚ := max lo (min hi v)

/-- DEFAULT_NEEDLE_ANGLE_DEG = 15 (App.tsx line 12). -/
def DEFAULT_NEEDLE_ANGLE_DEG : ℚ := 15

/-- Initial needle position new THREE.Vector3(1.5, 1.2, 1.5) (App.tsx line 199). -/
def initialNeedlePos : Vec3 := ⟨3/2, 6/5, 3/2⟩

/-- Initial React state (App.tsx lines 194-199): phase pre-puncture, mode camera,
innerOffset 0, outerOffset 0, angle 15, position (1.5, 1.2, 1.5). -/
def initState : SimState :=
  { phase := Phase.prePuncture
    mode := Mode.camera
    innerOffset := 0
    outerOffset := 0
    needleAngle := DEFAULT_NEEDLE_ANGLE_DEG
    needlePos := initialNeedlePos }

/-- The hard-coded world-space puncture target new THREE.Vector3(0.0, -0.78, 0.30)
(App.tsx line 50). -/
def veinWorldApprox : Vec3 := ⟨0, -78/100, 30/100⟩

/-- Squared Euclidean distance.  The source compares
tipWorld.distanceTo(veinWorldApprox) < 0.5; since both sides are nonnegative
this is equivalent to the squared distance being below 0.25, which keeps the
embedding inside exact rational arithmetic. -/
def distSq (a b : Vec3) : ℚ :=
  (a.x - b.x) ^ 2 + (a.y - b.y) ^ 2 + (a.z - b.z) ^ 2

/-- handlePuncture (App.tsx lines 311-325): guarded on phase pre-puncture, sets
phase punctured and mode camera.  The camera reframe through controlsRef only
touches the Three.js camera object, not the React state, so it has no
counterpart in the state embedding. -/
def handlePuncture (s : SimState) : SimState :=
  if s.phase = Phase.prePuncture then
    { s with phase := Phase.punctured, mode := Mode.camera }
  else s

/-- The per-frame callback in SimulatorScene (App.tsx lines 47-55): returns
immediately unless phase is pre-puncture, otherwise fires onPuncture
(= handlePuncture) when the needle position is within distance 0.5
(squared distance 0.25) of veinWorldApprox. -/
def useFrameTick (s : SimState) : SimState :=
  if s.phase ≠ Phase.prePuncture then s
  else if distSq s.needlePos veinWorldApprox < 1/4 then handlePuncture s
  else s

/-- handleInnerChange (App.tsx lines 328-333): unconditionally stores the value
in innerOffset, then moves phase punctured to advancing when the value is
below -0.5. -/
def handleInnerChange (s : SimState) (value : ℚ) : SimState :=
  let s1 := { s with innerOffset := value }
  if value < -1/2 ∧ s.phase = Phase.punctured then { s1 with phase := Phase.advancing }
  else s1

/-- handleOuterChange (App.tsx lines 335-340): unconditionally stores the value
in outerOffset, then sets phase completed when the value exceeds 1.2 and the
(pre-command) innerOffset is below -2.5.  The source has no phase guard here;
phase gating happens only in SliderControls. -/
def handleOuterChange (s : SimState) (value : ℚ) : SimState :=
  let s1 := { s with outerOffset := value }
  if 6/5 < value ∧ s.innerOffset < -5/2 then { s1 with phase := Phase.completed }
  else s1

/-- handleReset (App.tsx lines 343-350): phase pre-puncture, mode camera, both
offsets 0, position (1.5, 1.2, 1.5), angle 15. -/
def handleReset (_s : SimState) : SimState :=
  { phase := Phase.prePuncture
    mode := Mode.camera
    innerOffset := 0
    outerOffset := 0
    needleAngle := DEFAULT_NEEDLE_ANGLE_DEG
    needlePos := initialNeedlePos }

/-- handlePointerMove (App.tsx lines 225-256): gated on needle mode and phase
pre-puncture (the isDragging / activeTouchCount refs only further restrict when
the event fires).  The argument is the world-space displacement
right * (dx * 0.01) + up * (-dy * 0.01) for the current camera basis; since the
camera orbit is arbitrary this is an arbitrary vector.  Each coordinate of the
new position is clamped (lines 251-253). -/
def handlePointerMove (s : SimState) (move : Vec3) : SimState :=
  if s.mode = Mode.needle ∧ s.phase = Phase.prePuncture then
    { s with needlePos :=
        ⟨clampQ (-5) 5 (s.needlePos.x + move.x),
         clampQ (-3/2) 4 (s.needlePos.y + move.y),
         clampQ (-1/2) 3 (s.needlePos.z + move.z)⟩ }
  else s

/-- handleWheel (App.tsx lines 263-272): gated on needle mode ONLY (no phase
guard in the source).  Adds deltaY * -0.002 to the z coordinate and clamps it
to [-0.5, 3.0]. -/
def handleWheel (s : SimState) (deltaY : ℚ) : SimState :=
  if s.mode = Mode.needle then
    { s with needlePos :=
        { s.needlePos with z := clampQ (-1/2) 3 (s.needlePos.z + deltaY * (-1/500)) } }
  else s

/-- handleTouchMove, the two-finger pinch (App.tsx lines 286-301): gated on
needle mode and phase pre-puncture; subtracts the pinch delta
(dist - lastPinchDist) * 0.005, an arbitrary rational, from z and clamps. -/
def handleTouchMove (s : SimState) (delta : ℚ) : SimState :=
  if s.mode = Mode.needle ∧ s.phase = Phase.prePuncture then
    { s with needlePos :=
        { s.needlePos with z := clampQ (-1/2) 3 (s.needlePos.z - delta) } }
  else s

/-- The angle-up button (App.tsx line 421): onClick sets Math.min(45, a + 5).
The button is rendered only when mode is needle and phase is pre-puncture
(App.tsx line 417), embedded as the guard. -/
def needleAngleUp (s : SimState) : SimState :=
  if s.mode = Mode.needle ∧ s.phase = Phase.prePuncture then
    { s with needleAngle := min 45 (s.needleAngle + 5) }
  else s

/-- The angle-down button (App.tsx line 432): onClick sets Math.max(5, a - 5),
rendered under the same condition as the angle-up button. -/
def needleAngleDown (s : SimState) : SimState :=
  if s.mode = Mode.needle ∧ s.phase = Phase.prePuncture then
    { s with needleAngle := max 5 (s.needleAngle - 5) }
  else s

/-- The inner-stylet slider path.  SliderControls renders nothing while phase is
pre-puncture (SliderControls.tsx line 24) and disables the input when phase is
completed (line 80), so onInnerChange can fire only in phases punctured and
advancing; the range input carries min -3.5, max 0 (lines 64-65), so the value
delivered to handleInnerChange lies in that interval (the 0.01 step only thins
the value set further). -/
def sliderInnerChange (s : SimState) (value : ℚ) : SimState :=
  if s.phase = Phase.prePuncture then s
  else if s.phase = Phase.completed then s
  else handleInnerChange s (clampQ (-7/2) 0 value)

/-- The outer-catheter slider path: same gating as the inner slider
(SliderControls.tsx lines 24 and 114), range input min 0, max 1.5
(lines 97-98). -/
def sliderOuterChange (s : SimState) (value : ℚ) : SimState :=
  if s.phase = Phase.prePuncture then s
  else if s.phase = Phase.completed then s
  else handleOuterChange s (clampQ 0 (3/2) value)

/-- The command surface of the simulator: every input path that can mutate the
App state.  setMode embeds the two always-rendered mode buttons
(App.tsx lines 396-413); requestReset embeds the reset button wired to
handleReset. -/
inductive Cmd
  | pointerMove (move : Vec3)
  | wheel (deltaY : ℚ)
  | pinch (delta : ℚ)
  | angleUp
  | angleDown
  | setMode (m : Mode)
  | setInnerOffset (value : ℚ)
  | setOuterOffset (value : ℚ)
  | requestReset
  | frameTick
deriving DecidableEq

/-- One synchronous step of the simulator: dispatch a command to its handler. -/
def step (s : SimState) : Cmd → SimState
  | Cmd.pointerMove move => handlePointerMove s move
  | Cmd.wheel deltaY => handleWheel s deltaY
  | Cmd.pinch delta => handleTouchMove s delta
  | Cmd.angleUp => needleAngleUp s
  | Cmd.angleDown => needleAngleDown s
  | Cmd.setMode m => { s with mode := m }
  | Cmd.setInnerOffset value => sliderInnerChange s value
  | Cmd.setOuterOffset value => sliderOuterChange s value
  | Cmd.requestReset => handleReset s
  | Cmd.frameTick => useFrameTick s

/-- Run a list of commands from a state. -/
def run (s : SimState) (cs : List Cmd) : SimState := cs.foldl step s

/-- States reachable from the initial React state under the command surface. -/
inductive Reachable : SimState → Prop
  | init : Reachable initState
  | next {s : SimState} (c : Cmd) : Reachable s → Reachable (step s c)

/-- Numbering of phases along the procedure chain. -/
def phaseIdx : Phase → ℕ
  | Phase.prePuncture => 0
  | Phase.punctured => 1
  | Phase.advancing => 2
  | Phase.completed => 3

/-- The declared bounds: position box x in [-5,5], y in [-1.5,4], z in [-0.5,3],
angle in [5,45], innerOffset in [-3.5,0], outerOffset in [0,1.5]. -/
def InBounds (s : SimState) : Prop :=
  -5 ≤ s.needlePos.x ∧ s.needlePos.x ≤ 5 ∧
  -3/2 ≤ s.needlePos.y ∧ s.needlePos.y ≤ 4 ∧
  -1/2 ≤ s.needlePos.z ∧ s.needlePos.z ≤ 3 ∧
  5 ≤ s.needleAngle ∧ s.needleAngle ≤ 45 ∧
  -7/2 ≤ s.innerOffset ∧ s.innerOffset ≤ 0 ∧
  0 ≤ s.outerOffset ∧ s.outerOffset ≤ 3/2

/-- Phase-offset coupling maintained by every command: before puncture both
offsets still sit at their initial 0, and while punctured the stylet has not
yet been retracted past -0.5. -/
def PhaseInv (s : SimState) : Prop :=
  (s.phase = Phase.prePuncture → s.innerOffset = 0 ∧ s.outerOffset = 0) ∧
  (s.phase = Phase.punctured → -1/2 ≤ s.innerOffset)

theorem le_clampQ (lo hi v : ℚ) : lo ≤ clampQ lo hi v := le_max_left _ _

theorem clampQ_le {lo hi : ℚ} (h : lo ≤ hi) (v : ℚ) : clampQ lo hi v ≤ hi :=
  max_le h (min_le_left _ _)

theorem clampQ_lt_iff (lo hi t : ℚ) (h1 : lo < t) (h2 : t ≤ hi) (v : ℚ) :
    clampQ lo hi v < t ↔ v < t := by
  unfold clampQ
  rw [max_lt_iff, min_lt_iff]
  constructor
  · rintro ⟨-, hv | hv⟩
    · linarith
    · exact hv
  · intro hv
    exact ⟨h1, Or.inr hv⟩

theorem lt_clampQ_iff (lo hi t : ℚ) (h1 : lo ≤ t) (h2 : t < hi) (v : ℚ) :
    t < clampQ lo hi v ↔ t < v := by
  unfold clampQ
  rw [lt_max_iff, lt_min_iff]
  constructor
  · rintro (hv | ⟨-, hv⟩)
    · linarith
    · exact hv
  · intro hv
    exact Or.inr ⟨h2, hv⟩

theorem phaseInv_step {s : SimState} (c : Cmd) (h : PhaseInv s) : PhaseInv (step s c) := by
  obtain ⟨hpre, hpunc⟩ := h
  cases c with
  | pointerMove move =>
      simp only [step, handlePointerMove]
      split_ifs <;> exact ⟨hpre, hpunc⟩
  | wheel deltaY =>
      simp only [step, handleWheel]
      split_ifs <;> exact ⟨hpre, hpunc⟩
  | pinch delta =>
      simp only [step, handleTouchMove]
      split_ifs <;> exact ⟨hpre, hpunc⟩
  | angleUp =>
      simp only [step, needleAngleUp]
      split_ifs <;> exact ⟨hpre, hpunc⟩
  | angleDown =>
      simp only [step, needleAngleDown]
      split_ifs <;> exact ⟨hpre, hpunc⟩
  | setMode m =>
      exact ⟨hpre, hpunc⟩
  | setInnerOffset value =>
      simp only [step, sliderInnerChange]
      split_ifs with h1 h2
      · exact ⟨hpre, hpunc⟩
      · exact ⟨hpre, hpunc⟩
      · simp only [handleInnerChange]
        split_ifs with h3
        · exact ⟨fun hc => Phase.noConfusion hc, fun hc => Phase.noConfusion hc⟩
        · refine ⟨fun hc => absurd hc h1, fun hc => ?_⟩
          have h4 : ¬ clampQ (-7/2) 0 value < -1/2 := fun hlt => h3 ⟨hlt, hc⟩
          linarith [not_lt.mp h4]
  | setOuterOffset value =>
      simp only [step, sliderOuterChange]
      split_ifs with h1 h2
      · exact ⟨hpre, hpunc⟩
      · exact ⟨hpre, hpunc⟩
      · simp only [handleOuterChange]
        split_ifs with h3
        · exact ⟨fun hc => Phase.noConfusion hc, fun hc => Phase.noConfusion hc⟩
        · exact ⟨fun hc => absurd hc h1, fun hc => hpunc hc⟩
  | requestReset =>
      exact ⟨fun _ => ⟨rfl, rfl⟩, fun hc => Phase.noConfusion hc⟩
  | frameTick =>
      simp only [step, useFrameTick]
      split_ifs with h1 h2
      · exact ⟨hpre, hpunc⟩
      · simp only [handlePuncture]
        split_ifs with h3
        · have hp : s.phase = Phase.prePuncture := not_not.mp h1
          obtain ⟨hi, -⟩ := hpre hp
          refine ⟨fun hc => Phase.noConfusion hc, fun _ => ?_⟩
          rw [hi]
          norm_num
        · exact ⟨hpre, hpunc⟩
      · exact ⟨hpre, hpunc⟩

theorem inBounds_step {s : SimState} (c : Cmd) (h : InBounds s) : InBounds (step s c) := by
  obtain ⟨hx1, hx2, hy1, hy2, hz1, hz2, ha1, ha2, hi1, hi2, ho1, ho2⟩ := h
  cases c with
  | pointerMove move =>
      simp only [step, handlePointerMove]
      split_ifs
      · exact ⟨le_clampQ _ _ _, clampQ_le (by norm_num) _,
          le_clampQ _ _ _, clampQ_le (by norm_num) _,
          le_clampQ _ _ _, clampQ_le (by norm_num) _,
          ha1, ha2, hi1, hi2, ho1, ho2⟩
      · exact ⟨hx1, hx2, hy1, hy2, hz1, hz2, ha1, ha2, hi1, hi2, ho1, ho2⟩
  | wheel deltaY =>
      simp only [step, handleWheel]
      split_ifs
      · exact ⟨hx1, hx2, hy1, hy2, le_clampQ _ _ _, clampQ_le (by norm_num) _,
          ha1, ha2, hi1, hi2, ho1, ho2⟩
      · exact ⟨hx1, hx2, hy1, hy2, hz1, hz2, ha1, ha2, hi1, hi2, ho1, ho2⟩
  | pinch delta =>
      simp only [step, handleTouchMove]
      split_ifs
      · exact ⟨hx1, hx2, hy1, hy2, le_clampQ _ _ _, clampQ_le (by norm_num) _,
          ha1, ha2, hi1, hi2, ho1, ho2⟩
      · exact ⟨hx1, hx2, hy1, hy2, hz1, hz2, ha1, ha2, hi1, hi2, ho1, ho2⟩
  | angleUp =>
      simp only [step, needleAngleUp]
      split_ifs
      · exact ⟨hx1, hx2, hy1, hy2, hz1, hz2,
          le_min (by norm_num) (by linarith), min_le_left _ _,
          hi1, hi2, ho1, ho2⟩
      · exact ⟨hx1, hx2, hy1, hy2, hz1, hz2, ha1, ha2, hi1, hi2, ho1, ho2⟩
  | angleDown =>
      simp only [step, needleAngleDown]
      split_ifs
      · exact ⟨hx1, hx2, hy1, hy2, hz1, hz2,
          le_max_left _ _, max_le (by norm_num) (by linarith),
          hi1, hi2, ho1, ho2⟩
      · exact ⟨hx1, hx2, hy1, hy2, hz1, hz2, ha1, ha2, hi1, hi2, ho1, ho2⟩
  | setMode m =>
      exact ⟨hx1, hx2, hy1, hy2, hz1, hz2, ha1, ha2, hi1, hi2, ho1, ho2⟩
  | setInnerOffset value =>
      simp only [step, sliderInnerChange]
      split_ifs
      · exact ⟨hx1, hx2, hy1, hy2, hz1, hz2, ha1, ha2, hi1, hi2, ho1, ho2⟩
      · exact ⟨hx1, hx2, hy1, hy2, hz1, hz2, ha1, ha2, hi1, hi2, ho1, ho2⟩
      · simp only [handleInnerChange]
        split_ifs
        · exact ⟨hx1, hx2, hy1, hy2, hz1, hz2, ha1, ha2,
            le_clampQ _ _ _, clampQ_le (by norm_num) _, ho1, ho2⟩
        · exact ⟨hx1, hx2, hy1, hy2, hz1, hz2, ha1, ha2,
            le_clampQ _ _ _, clampQ_le (by norm_num) _, ho1, ho2⟩
  | setOuterOffset value =>
      simp only [step, sliderOuterChange]
      split_ifs
      · exact ⟨hx1, hx2, hy1, hy2, hz1, hz2, ha1, ha2, hi1, hi2, ho1, ho2⟩
      · exact ⟨hx1, hx2, hy1, hy2, hz1, hz2, ha1, ha2, hi1, hi2, ho1, ho2⟩
      · simp only [handleOuterChange]
        split_ifs
        · exact ⟨hx1, hx2, hy1, hy2, hz1, hz2, ha1, ha2, hi1, hi2,
            le_clampQ _ _ _, clampQ_le (by norm_num) _⟩
        · exact ⟨hx1, hx2, hy1, hy2, hz1, hz2, ha1, ha2, hi1, hi2,
            le_clampQ _ _ _, clampQ_le (by norm_num) _⟩
  | requestReset =>
      refine ⟨?_, ?_, ?_, ?_, ?_, ?_, ?_, ?_, ?_, ?_, ?_, ?_⟩ <;>
        norm_num [step, handleReset, initialNeedlePos, DEFAULT_NEEDLE_ANGLE_DEG]
  | frameTick =>
      simp only [step, useFrameTick]
      split_ifs
      · exact ⟨hx1, hx2, hy1, hy2, hz1, hz2, ha1, ha2, hi1, hi2, ho1, ho2⟩
      · simp only [handlePuncture]
        split_ifs
        · exact ⟨hx1, hx2, hy1, hy2, hz1, hz2, ha1, ha2, hi1, hi2, ho1, ho2⟩
        · exact ⟨hx1, hx2, hy1, hy2, hz1, hz2, ha1, ha2, hi1, hi2, ho1, ho2⟩
      · exact ⟨hx1, hx2, hy1, hy2, hz1, hz2, ha1, ha2, hi1, hi2, ho1, ho2⟩

theorem reachable_inv {s : SimState} (h : Reachable s) : PhaseInv s ∧ InBounds s := by
  induction h with
  | init =>
      refine ⟨⟨fun _ => ⟨rfl, rfl⟩, fun hc => Phase.noConfusion hc⟩, ?_⟩
      refine ⟨?_, ?_, ?_, ?_, ?_, ?_, ?_, ?_, ?_, ?_, ?_, ?_⟩ <;>
        norm_num [initState, initialNeedlePos, DEFAULT_NEEDLE_ANGLE_DEG]
  | next c _ ih =>
      exact ⟨phaseInv_step c ih.1, inBounds_step c ih.2⟩

theorem reachable_run {s : SimState} (cs : List Cmd) (h : Reachable s) :
    Reachable (run s cs) := by
  induction cs generalizing s with
  | nil => exact h
  | cons c cs ih => exact ih (Reachable.next c h)

/-- Needle-mode variant of the initial state, reached by pressing the needle
mode button once. -/
def demoNeedlePre : SimState :=
  { phase := Phase.prePuncture
    mode := Mode.needle
    innerOffset := 0
    outerOffset := 0
    needleAngle := 15
    needlePos := ⟨3/2, 6/5, 3/2⟩ }

/-- Pre-puncture state with the needle dragged exactly onto the puncture
target. -/
def demoAimedPre : SimState :=
  { phase := Phase.prePuncture
    mode := Mode.needle
    innerOffset := 0
    outerOffset := 0
    needleAngle := 15
    needlePos := ⟨0, -78/100, 30/100⟩ }

/-- State right after the puncture tick fires: phase punctured, mode forced
back to camera. -/
def demoPunctured : SimState :=
  { phase := Phase.punctured
    mode := Mode.camera
    innerOffset := 0
    outerOffset := 0
    needleAngle := 15
    needlePos := ⟨0, -78/100, 30/100⟩ }

/-- Punctured state after the user presses the needle-mode button again. -/
def demoPuncturedNeedle : SimState :=
  { phase := Phase.punctured
    mode := Mode.needle
    innerOffset := 0
    outerOffset := 0
    needleAngle := 15
    needlePos := ⟨0, -78/100, 30/100⟩ }

/-- Advancing state right after the stylet is first retracted past -0.5. -/
def demoAdvStart : SimState :=
  { phase := Phase.advancing
    mode := Mode.camera
    innerOffset := -3/5
    outerOffset := 0
    needleAngle := 15
    needlePos := ⟨0, -78/100, 30/100⟩ }

/-- Advancing state with the stylet fully retracted to -2.6. -/
def demoAdvancing : SimState :=
  { phase := Phase.advancing
    mode := Mode.camera
    innerOffset := -13/5
    outerOffset := 0
    needleAngle := 15
    needlePos := ⟨0, -78/100, 30/100⟩ }

/-- Completed state after the catheter is advanced to 1.3. -/
def demoCompleted : SimState :=
  { phase := Phase.completed
    mode := Mode.camera
    innerOffset := -13/5
    outerOffset := 13/10
    needleAngle := 15
    needlePos := ⟨0, -78/100, 30/100⟩ }

theorem demoStep1 : step initState (Cmd.setMode Mode.needle) = demoNeedlePre := by
  norm_num [step, initState, initialNeedlePos, DEFAULT_NEEDLE_ANGLE_DEG, demoNeedlePre,
    SimState.mk.injEq, Vec3.mk.injEq]

theorem demoStep2 : step demoNeedlePre (Cmd.pointerMove ⟨-3/2, -99/50, -6/5⟩) = demoAimedPre := by
  norm_num [step, handlePointerMove, demoNeedlePre, demoAimedPre, clampQ, min_def, max_def,
    SimState.mk.injEq, Vec3.mk.injEq]

theorem demoStep3 : step demoAimedPre Cmd.frameTick = demoPunctured := by
  norm_num [step, useFrameTick, handlePuncture, distSq, veinWorldApprox, demoAimedPre,
    demoPunctured, SimState.mk.injEq, Vec3.mk.injEq]

theorem demoStep4 : step demoPunctured (Cmd.setMode Mode.needle) = demoPuncturedNeedle := by
  norm_num [step, demoPunctured, demoPuncturedNeedle, SimState.mk.injEq, Vec3.mk.injEq]

theorem demoStep5 : step demoPunctured (Cmd.setInnerOffset (-3/5)) = demoAdvStart := by
  norm_num [step, sliderInnerChange, handleInnerChange, demoPunctured, demoAdvStart,
    clampQ, min_def, max_def, SimState.mk.injEq, Vec3.mk.injEq]
  rfl

theorem demoStep6 : step demoAdvStart (Cmd.setInnerOffset (-13/5)) = demoAdvancing := by
  norm_num [step, sliderInnerChange, handleInnerChange, demoAdvStart, demoAdvancing,
    clampQ, min_def, max_def, SimState.mk.injEq, Vec3.mk.injEq]
  rfl

theorem demoStep7 : step demoAdvancing (Cmd.setOuterOffset (13/10)) = demoCompleted := by
  norm_num [step, sliderOuterChange, handleOuterChange, demoAdvancing, demoCompleted,
    clampQ, min_def, max_def, SimState.mk.injEq, Vec3.mk.injEq]
  rfl

theorem reachable_demoNeedlePre : Reachable demoNeedlePre := by
  rw [← demoStep1]
  exact Reachable.next _ Reachable.init

theorem reachable_demoAimedPre : Reachable demoAimedPre := by
  rw [← demoStep2]
  exact Reachable.next _ reachable_demoNeedlePre

theorem reachable_demoPunctured : Reachable demoPunctured := by
  rw [← demoStep3]
  exact Reachable.next _ reachable_demoAimedPre

theorem reachable_demoPuncturedNeedle : Reachable demoPuncturedNeedle := by
  rw [← demoStep4]
  exact Reachable.next _ reachable_demoPunctured

theorem reachable_demoAdvStart : Reachable demoAdvStart := by
  rw [← demoStep5]
  exact Reachable.next _ reachable_demoPunctured

theorem reachable_demoAdvancing : Reachable demoAdvancing := by
  rw [← demoStep6]
  exact Reachable.next _ reachable_demoAdvStart

theorem reachable_demoCompleted : Reachable demoCompleted := by
  rw [← demoStep7]
  exact Reachable.next _ reachable_demoAdvancing

/-- Pre-puncture state whose needle sits at distance 0.4 from the puncture
target, as in the spec's scenario for the puncture check. -/
def demoClosePre : SimState :=
  { phase := Phase.prePuncture
    mode := Mode.camera
    innerOffset := 0
    outerOffset := 0
    needleAngle := 15
    needlePos := ⟨0, -78/100, 7/10⟩ }

/-- Claim C1: on a simulation tick taken while the phase is pre-puncture, if
the needle position is at distance below 0.5 from the puncture target
(0, -0.78, 0.30), equivalently at squared distance below 0.25, the phase
becomes punctured; in every other phase the tick returns the state unchanged,
with no side effects. -/
theorem C1_tick_puncture (s : SimState) :
    (s.phase = Phase.prePuncture → distSq s.needlePos veinWorldApprox < 1/4 →
      (step s Cmd.frameTick).phase = Phase.punctured) ∧
    (s.phase ≠ Phase.prePuncture → step s Cmd.frameTick = s) := by
  constructor
  · intro hp hd
    simp [step, useFrameTick, handlePuncture, hp, hd, -one_div]
  · intro hp
    simp [step, useFrameTick, hp]

/-- Witness for C1: at demoClosePre (distance 0.4 from the target) the tick
punctures; at demoCompleted the tick is the identity. -/
theorem C1_tick_puncture_witness :
    (demoClosePre.phase = Phase.prePuncture ∧
      distSq demoClosePre.needlePos veinWorldApprox < 1/4 ∧
      (step demoClosePre Cmd.frameTick).phase = Phase.punctured) ∧
    (demoCompleted.phase ≠ Phase.prePuncture ∧
      step demoCompleted Cmd.frameTick = demoCompleted) := by
  have hd : distSq demoClosePre.needlePos veinWorldApprox < 1/4 := by
    norm_num [distSq, demoClosePre, veinWorldApprox]
  have hc : demoCompleted.phase ≠ Phase.prePuncture := by
    simp [demoCompleted]
  exact ⟨⟨rfl, hd, (C1_tick_puncture demoClosePre).1 rfl hd⟩,
    ⟨hc, (C1_tick_puncture demoCompleted).2 hc⟩⟩

/-- Claim C3: from phase punctured, an inner-offset command with value below
-0.5 moves the phase to advancing, and one with value at least -0.5 leaves the
phase punctured. -/
theorem C3_inner_retract {s : SimState} (value : ℚ) (h : s.phase = Phase.punctured) :
    (value < -1/2 → (step s (Cmd.setInnerOffset value)).phase = Phase.advancing) ∧
    (-1/2 ≤ value → (step s (Cmd.setInnerOffset value)).phase = Phase.punctured) := by
  have hcl := clampQ_lt_iff (-7/2) 0 (-1/2) (by norm_num) (by norm_num) value
  constructor
  · intro hv
    simp [step, sliderInnerChange, handleInnerChange, h, hcl.mpr hv]
  · intro hv
    have hn : ¬ clampQ (-7/2) 0 value < -1/2 := by
      rw [hcl]
      linarith
    simp [step, sliderInnerChange, handleInnerChange, h, hn]

/-- Witness for C3 at the reachable punctured demo state, with the spec's
scenario value -0.6 and with 0. -/
theorem C3_inner_retract_witness :
    demoPunctured.phase = Phase.punctured ∧
    (step demoPunctured (Cmd.setInnerOffset (-3/5))).phase = Phase.advancing ∧
    (step demoPunctured (Cmd.setInnerOffset 0)).phase = Phase.punctured :=
  ⟨rfl, (C3_inner_retract (s := demoPunctured) (-3/5) rfl).1 (by norm_num),
    (C3_inner_retract (s := demoPunctured) 0 rfl).2 (by norm_num)⟩

/-- Claim C5: an inner-offset command issued while the phase is pre-puncture
or completed is a silent no-op: SliderControls does not render the slider
before puncture and disables it on completion, so the command never reaches
handleInnerChange and the whole state is unchanged. -/
theorem C5_inner_rejected {s : SimState} (value : ℚ)
    (h : s.phase = Phase.prePuncture ∨ s.phase = Phase.completed) :
    step s (Cmd.setInnerOffset value) = s := by
  rcases h with h | h <;> simp [step, sliderInnerChange, h]

/-- Witness for C5 at the initial (pre-puncture) state and at the reachable
completed demo state. -/
theorem C5_inner_rejected_witness :
    (initState.phase = Phase.prePuncture ∨ initState.phase = Phase.completed) ∧
    step initState (Cmd.setInnerOffset (-1)) = initState ∧
    (demoCompleted.phase = Phase.prePuncture ∨ demoCompleted.phase = Phase.completed) ∧
    step demoCompleted (Cmd.setInnerOffset (-1)) = demoCompleted :=
  ⟨Or.inl rfl, C5_inner_rejected (s := initState) (-1) (Or.inl rfl),
    Or.inr rfl, C5_inner_rejected (s := demoCompleted) (-1) (Or.inr rfl)⟩

/-- Claim C8: a reset command from any state restores exactly the documented
initial values (phase pre-puncture, offsets 0, pose (1.5, 1.2, 1.5), angle 15,
mode camera), and resetting twice gives the same state as resetting once. -/
theorem C8_reset_restores_initial (s : SimState) :
    step s Cmd.requestReset = initState ∧
    step (step s Cmd.requestReset) Cmd.requestReset = step s Cmd.requestReset :=
  ⟨rfl, rfl⟩

/-- The puncture-guide marker position in the forearm group's local frame,
group position [0.02, 0, 0.30] in the PunctureGuide component (Arm.tsx). -/
def punctureGuideLocal : Vec3 := ⟨2/100, 0, 30/100⟩

/-- The forearm group's world position [0, -0.8, 0] (Arm.tsx). -/
def armGroupPosition : Vec3 := ⟨0, -8/10, 0⟩

/-- The forearm group's world rotation, rotation [0, 0, Math.PI / 2] (Arm.tsx):
a rotation by pi/2 about the Z axis sends (x, y, z) to
(x cos - y sin, x sin + y cos, z) = (-y, x, z) since cos(pi/2) = 0 and
sin(pi/2) = 1. -/
def armGroupRotate (p : Vec3) : Vec3 := ⟨-p.y, p.x, p.z⟩

/-- The forearm group's local-to-world transform: rotate by pi/2 about Z, then
translate by the group position. -/
def armLocalToWorld (p : Vec3) : Vec3 :=
  ⟨(armGroupRotate p).x + armGroupPosition.x,
   (armGroupRotate p).y + armGroupPosition.y,
   (armGroupRotate p).z + armGroupPosition.z⟩

/-- The ten CatmullRomCurve3 control points of the rendered vein spline in the
Vein component (Arm.tsx), in the forearm group's local frame. -/
def veinControlPoints : List Vec3 :=
  [⟨-8/100, -6, 20/100⟩,
   ⟨-5/100, -4, 23/100⟩,
   ⟨-3/100, -2, 27/100⟩,
   ⟨0, -1/2, 29/100⟩,
   ⟨2/100, 0, 30/100⟩,
   ⟨3/100, 1/2, 31/100⟩,
   ⟨5/100, 2, 33/100⟩,
   ⟨8/100, 3, 35/100⟩,
   ⟨10/100, 9/2, 38/100⟩,
   ⟨12/100, 6, 40/100⟩]

/-- Claim C9: the hard-coded world target (0, -0.78, 0.30) used by the puncture
check is exactly the image of the local puncture-guide point (0.02, 0, 0.30)
under the forearm group's local-to-world transform, and that local point is
itself one of the control points of the rendered vein spline, so the target
and the vein come from one consistent set of anatomical constants. -/
theorem C9_target_consistent :
    armLocalToWorld punctureGuideLocal = veinWorldApprox ∧
    punctureGuideLocal ∈ veinControlPoints := by
  constructor
  · norm_num [armLocalToWorld, armGroupRotate, armGroupPosition, punctureGuideLocal,
      veinWorldApprox, Vec3.mk.injEq]
  · simp [veinControlPoints, punctureGuideLocal]

/-- Claim C2: from phase advancing, an outer-offset command completes the
procedure exactly when its value exceeds 1.2 and the inner offset is already
below -2.5; advancing the catheter alone never completes; and no reachable
state other than advancing transitions into completed on an outer-offset
command (from completed itself the disabled slider changes nothing). -/
theorem C2_completed_guard {s : SimState} (hs : Reachable s) (value : ℚ) :
    (s.phase = Phase.advancing →
      ((step s (Cmd.setOuterOffset value)).phase = Phase.completed ↔
        6/5 < value ∧ s.innerOffset < -5/2)) ∧
    ((step s (Cmd.setOuterOffset value)).phase = Phase.completed →
      s.phase = Phase.advancing ∨ s.phase = Phase.completed) := by
  have hpunc := (reachable_inv hs).1.2
  have hcl := lt_clampQ_iff 0 (3/2) (6/5) (by norm_num) (by norm_num) value
  constructor
  · intro ha
    have hstep : step s (Cmd.setOuterOffset value) =
        handleOuterChange s (clampQ 0 (3/2) value) := by
      simp [step, sliderOuterChange, ha]
    rw [hstep]
    simp only [handleOuterChange]
    split_ifs with hc
    · exact iff_of_true rfl ⟨hcl.mp hc.1, hc.2⟩
    · rw [show ({ s with outerOffset := clampQ 0 (3/2) value } : SimState).phase = s.phase
        from rfl, ha]
      exact iff_of_false (by simp) (fun hv => hc ⟨hcl.mpr hv.1, hv.2⟩)
  · intro h
    rcases hph : s.phase with _ | _ | _ | _
    · rw [show step s (Cmd.setOuterOffset value) = s from by
        simp [step, sliderOuterChange, hph]] at h
      rw [hph] at h
      exact absurd h (by simp)
    · have hge := hpunc hph
      have hstep : step s (Cmd.setOuterOffset value) =
          handleOuterChange s (clampQ 0 (3/2) value) := by
        simp [step, sliderOuterChange, hph]
      rw [hstep] at h
      simp only [handleOuterChange] at h
      split_ifs at h with hc
      · exact absurd hc.2 (by linarith)
      · rw [show ({ s with outerOffset := clampQ 0 (3/2) value } : SimState).phase = s.phase
          from rfl, hph] at h
        exact absurd h (by simp)
    · exact Or.inl rfl
    · exact Or.inr rfl

/-- Witness for C2 at the reachable advancing demo state (inner offset -2.6),
with the spec's scenario value 1.3. -/
theorem C2_completed_guard_witness :
    Reachable demoAdvancing ∧ demoAdvancing.phase = Phase.advancing ∧
    ((step demoAdvancing (Cmd.setOuterOffset (13/10))).phase = Phase.completed ↔
      6/5 < (13/10 : ℚ) ∧ demoAdvancing.innerOffset < -5/2) :=
  ⟨reachable_demoAdvancing, rfl,
    (C2_completed_guard reachable_demoAdvancing (13/10)).1 rfl⟩

/-- Claim C4: from any reachable state, every command leaves the phase where it
is or moves it exactly one stage forward along
prePuncture, punctured, advancing, completed; the only exception is the reset
command, which returns the phase to prePuncture. -/
theorem C4_phase_monotonic {s : SimState} (hs : Reachable s) (c : Cmd) :
    (step s c).phase = s.phase ∨
    phaseIdx (step s c).phase = phaseIdx s.phase + 1 ∨
    (c = Cmd.requestReset ∧ (step s c).phase = Phase.prePuncture) := by
  cases c with
  | pointerMove move =>
      left
      simp only [step, handlePointerMove]
      split_ifs <;> rfl
  | wheel deltaY =>
      left
      simp only [step, handleWheel]
      split_ifs <;> rfl
  | pinch delta =>
      left
      simp only [step, handleTouchMove]
      split_ifs <;> rfl
  | angleUp =>
      left
      simp only [step, needleAngleUp]
      split_ifs <;> rfl
  | angleDown =>
      left
      simp only [step, needleAngleDown]
      split_ifs <;> rfl
  | setMode m =>
      left
      rfl
  | setInnerOffset value =>
      simp only [step, sliderInnerChange]
      split_ifs with h1 h2
      · exact Or.inl rfl
      · exact Or.inl rfl
      · simp only [handleInnerChange]
        split_ifs with h3
        · right
          left
          rw [h3.2]
          simp [phaseIdx]
        · exact Or.inl rfl
  | setOuterOffset value =>
      have hpunc := (reachable_inv hs).1.2
      simp only [step, sliderOuterChange]
      split_ifs with h1 h2
      · exact Or.inl rfl
      · exact Or.inl rfl
      · simp only [handleOuterChange]
        split_ifs with h3
        · rcases hph : s.phase with _ | _ | _ | _
          · exact absurd hph h1
          · exact absurd h3.2 (by linarith [hpunc hph])
          · right
            left
            simp [phaseIdx]
          · exact absurd hph h2
        · exact Or.inl rfl
  | requestReset =>
      right
      right
      exact ⟨rfl, rfl⟩
  | frameTick =>
      simp only [step, useFrameTick]
      split_ifs with h1 h2
      · exact Or.inl rfl
      · simp only [handlePuncture]
        split_ifs with h3
        · right
          left
          rw [h3]
          simp [phaseIdx]
        · exact Or.inl rfl
      · exact Or.inl rfl

/-- Witness for C4 at the reachable advancing demo state under the completing
outer-offset command: the phase moves exactly one stage forward. -/
theorem C4_phase_monotonic_witness :
    Reachable demoAdvancing ∧
    ((step demoAdvancing (Cmd.setOuterOffset (13/10))).phase = demoAdvancing.phase ∨
      phaseIdx (step demoAdvancing (Cmd.setOuterOffset (13/10))).phase =
        phaseIdx demoAdvancing.phase + 1 ∨
      (Cmd.setOuterOffset (13/10) = Cmd.requestReset ∧
        (step demoAdvancing (Cmd.setOuterOffset (13/10))).phase = Phase.prePuncture)) :=
  ⟨reachable_demoAdvancing, C4_phase_monotonic reachable_demoAdvancing _⟩

/-- Claim C7: from any reachable state, any command yields a state inside the
declared bounds: position in the box x [-5,5], y [-1.5,4], z [-0.5,3], angle in
[5,45], innerOffset in [-3.5,0], outerOffset in [0,1.5]; out-of-range inputs
are clamped, never rejected with an error. -/
theorem C7_updates_clamped {s : SimState} (hs : Reachable s) (c : Cmd) :
    InBounds (step s c) :=
  inBounds_step c (reachable_inv hs).2

/-- Witness for C7: a pointer drag requesting a displacement of +100 on every
axis from the needle-mode initial state stays in bounds, with x clamped to
exactly 5 as in the spec's scenario. -/
theorem C7_updates_clamped_witness :
    Reachable demoNeedlePre ∧
    InBounds (step demoNeedlePre (Cmd.pointerMove ⟨100, 100, 100⟩)) ∧
    (step demoNeedlePre (Cmd.pointerMove ⟨100, 100, 100⟩)).needlePos.x = 5 := by
  refine ⟨reachable_demoNeedlePre, C7_updates_clamped reachable_demoNeedlePre _, ?_⟩
  norm_num [step, handlePointerMove, demoNeedlePre, clampQ, min_def, max_def]

/-- Claim C10: the completed phase can be entered only through an outer-offset
command: any other command taken from a reachable state ends in phase completed
only if the state already was completed. -/
theorem C10_completed_only_by_outer {s : SimState} (hs : Reachable s) (c : Cmd)
    (hc : ∀ value, c ≠ Cmd.setOuterOffset value)
    (h : (step s c).phase = Phase.completed) :
    s.phase = Phase.completed := by
  cases c with
  | pointerMove move =>
      simp only [step, handlePointerMove] at h
      split_ifs at h <;> exact h
  | wheel deltaY =>
      simp only [step, handleWheel] at h
      split_ifs at h <;> exact h
  | pinch delta =>
      simp only [step, handleTouchMove] at h
      split_ifs at h <;> exact h
  | angleUp =>
      simp only [step, needleAngleUp] at h
      split_ifs at h <;> exact h
  | angleDown =>
      simp only [step, needleAngleDown] at h
      split_ifs at h <;> exact h
  | setMode m =>
      exact h
  | setInnerOffset value =>
      simp only [step, sliderInnerChange] at h
      split_ifs at h
      · exact h
      · exact h
      · simp only [handleInnerChange] at h
        split_ifs at h <;> exact h
  | setOuterOffset value =>
      exact absurd rfl (hc value)
  | requestReset =>
      simp [step, handleReset] at h
  | frameTick =>
      simp only [step, useFrameTick] at h
      split_ifs at h
      · exact h
      · simp only [handlePuncture] at h
        split_ifs at h <;> exact h
      · exact h

/-- Witness for C10 at the reachable completed demo state under a frame tick,
which is a no-op there. -/
theorem C10_completed_only_by_outer_witness :
    Reachable demoCompleted ∧
    (∀ value, Cmd.frameTick ≠ Cmd.setOuterOffset value) ∧
    (step demoCompleted Cmd.frameTick).phase = Phase.completed ∧
    demoCompleted.phase = Phase.completed := by
  have h : (step demoCompleted Cmd.frameTick).phase = Phase.completed := rfl
  exact ⟨reachable_demoCompleted, fun value => by simp, h,
    C10_completed_only_by_outer reachable_demoCompleted Cmd.frameTick (fun value => by simp) h⟩

/-- Claim C6 is refuted by the source: handleWheel checks only the interaction
mode, never the phase, so the needle can still be moved after puncture.  The
punctured state demoPuncturedNeedle is reachable (puncture forces camera mode,
but the always-rendered mode button switches back to needle mode), and from it
a wheel event with deltaY -500 moves the needle z from 0.3 to 1.3. -/
theorem C6_counterexample :
    Reachable demoPuncturedNeedle ∧
    demoPuncturedNeedle.phase = Phase.punctured ∧
    (step demoPuncturedNeedle (Cmd.wheel (-500))).needlePos ≠
      demoPuncturedNeedle.needlePos := by
  refine ⟨reachable_demoPuncturedNeedle, rfl, ?_⟩
  norm_num [step, handleWheel, demoPuncturedNeedle, clampQ, min_def, max_def, Vec3.mk.injEq]

/-- Claim C6 amended: outside pre-puncture, drag, pinch and the angle buttons
leave the whole state unchanged, and the wheel never changes the angle or the
x and y coordinates; but the wheel may still change the depth coordinate z in
any phase while the needle mode is active. -/
theorem C6_pose_frozen_except_wheel {s : SimState} (h : s.phase ≠ Phase.prePuncture) :
    (∀ move, step s (Cmd.pointerMove move) = s) ∧
    (∀ delta, step s (Cmd.pinch delta) = s) ∧
    step s Cmd.angleUp = s ∧
    step s Cmd.angleDown = s ∧
    (∀ deltaY, (step s (Cmd.wheel deltaY)).needleAngle = s.needleAngle ∧
      (step s (Cmd.wheel deltaY)).needlePos.x = s.needlePos.x ∧
      (step s (Cmd.wheel deltaY)).needlePos.y = s.needlePos.y) := by
  refine ⟨?_, ?_, ?_, ?_, ?_⟩
  · intro move
    simp [step, handlePointerMove, h]
  · intro delta
    simp [step, handleTouchMove, h]
  · simp [step, needleAngleUp, h]
  · simp [step, needleAngleDown, h]
  · intro deltaY
    simp only [step, handleWheel]
    split_ifs <;> exact ⟨rfl, rfl, rfl⟩

/-- Witness for the amended C6 at the reachable punctured demo state. -/
theorem C6_pose_frozen_except_wheel_witness :
    demoPuncturedNeedle.phase ≠ Phase.prePuncture ∧
    step demoPuncturedNeedle (Cmd.pointerMove ⟨1, 1, 1⟩) = demoPuncturedNeedle ∧
    step demoPuncturedNeedle Cmd.angleUp = demoPuncturedNeedle := by
  have h : demoPuncturedNeedle.phase ≠ Phase.prePuncture := by
    simp [demoPuncturedNeedle]
  obtain ⟨h1, -, h3, -, -⟩ := C6_pose_frozen_except_wheel h
  exact ⟨h, h1 _, h3⟩
